import Mathlib

/-!
Shallow embedding of the company-screener service (FastAPI + asyncio) in Lean 4.

Modules embedded:
  - app/models/job.py, app/models/report.py : data model
  - app/utils/url_parser.py                 : company-name / domain extraction
  - main.py                                 : API boundary (generate, job status, report)
  - app/processors/report_generator.py      : orchestrator (generate_report_async)
  - app/data_sources/web_searcher.py        : per-topic web research fan-out
  - app/data_sources/openai_websearch.py    : search_on_website fallback behaviour
  - app/core/openai_api.py                  : retry/backoff loop and calling conventions
  - app/core/llm_api_wrapper.py             : cost accounting
  - app/core/report_generator.py            : gather(return_exceptions=True) + _safe_extract

Concurrency model: asyncio is single-threaded cooperative scheduling; code
between two await points runs atomically.  Interleaving is modelled explicitly
where a claim depends on it (completion orders as permutations, accumulator
updates as atomic fold steps).  External effects (LLM backend, web search)
are modelled as environment-supplied outcomes: `Except String a` stands for
a Python call that either returns a value or raises an exception with the
given message.
-/

namespace CompanyScreener

/-- Status of a report generation job (app/models/job.py, class JobStatus). -/
inductive JobStatus where
  | pending
  | processing
  | completed
  | failed
deriving DecidableEq, Repr

/-- The str values of the JobStatus enum members. -/
def JobStatus.str : JobStatus → String
  | .pending => "pending"
  | .processing => "processing"
  | .completed => "completed"
  | .failed => "failed"

/-- Structured company report (app/models/report.py, class ReportModel).
Every section field is optional and defaults to None. -/
structure ReportModel where
  company_overview : Option String := none
  product_business_model : Option String := none
  market_analysis : Option String := none
  competitive_landscape : Option String := none
  financial_metrics : Option String := none
  fundraising_history : Option String := none
  team_key_stakeholders : Option String := none
deriving DecidableEq, Repr

/-- A report-generation job (app/models/job.py, class ScreenerJob). -/
structure ScreenerJob where
  id : String
  status : JobStatus
  url : String
  domain : Option String := none
  report : Option ReportModel := none
  error : Option String := none
deriving DecidableEq, Repr

/-- The in-memory job store `jobs_db : Dict[str, ScreenerJob]`
(app/models/job.py), modelled as an association list. -/
def JobsDb : Type := List (String × ScreenerJob)

instance : DecidableEq JobsDb := by
  unfold JobsDb
  infer_instance

/-- Dictionary read `jobs_db[job_id]` / membership `job_id in jobs_db`. -/
def dbGet : JobsDb → String → Option ScreenerJob
  | [], _ => none
  | (k, v) :: rest, jobId => if k = jobId then some v else dbGet rest jobId

/-- Dictionary write `jobs_db[job_id] = job` (replaces an existing binding). -/
def dbSet : JobsDb → String → ScreenerJob → JobsDb
  | [], jobId, j => [(jobId, j)]
  | (k, v) :: rest, jobId, j =>
      if k = jobId then (jobId, j) :: rest else (k, v) :: dbSet rest jobId j

/-! ## app/utils/url_parser.py

`urlparse(url).netloc` is modelled after CPython urllib.parse.urlsplit:
strip a leading `scheme:` (the part before the first colon, when it starts
with a letter and consists of scheme characters), then, when the remainder
starts with `//`, the netloc is everything up to the next `/`, `?` or `#`. -/

/-- Characters allowed in a URL scheme (letters, digits, `+`, `-`, `.`). -/
def schemeChar (c : Char) : Bool :=
  c.isAlphanum || c = '+' || c = '-' || c = '.'

/-- Strip a leading `scheme:` prefix the way urlsplit does. -/
def removeScheme (url : String) : String :=
  let cs := url.toList
  match cs.findIdx? (· = ':') with
  | none => url
  | some i =>
      if 0 < i ∧ (cs.take i).all schemeChar ∧ (cs.headD ' ').isAlpha then
        ⟨cs.drop (i + 1)⟩
      else url

/-- `urlparse(url).netloc`. -/
def netlocOf (url : String) : String :=
  match (removeScheme url).toList with
  | '/' :: '/' :: tail =>
      ⟨tail.takeWhile (fun c => c != '/' && c != '?' && c != '#')⟩
  | _ => ""

/-- The `domain.startswith("www.")` strip: remove the leading characters
w, w, w, dot when they are exactly the first four characters. -/
def stripWww (cs : List Char) : List Char :=
  match cs with
  | 'w' :: 'w' :: 'w' :: '.' :: rest => rest
  | _ => cs

/-- app/utils/url_parser.py, extract_company_name_from_url: take the netloc,
strip a leading www., keep `domain.split(".")[0]` (the characters before the
first dot), then `replace("-", " ")` and `replace("_", " ")` (single-character
replacements, i.e. character maps). -/
def extract_company_name_from_url (url : String) : String :=
  let domain := stripWww (netlocOf url).toList
  let main_domain := domain.takeWhile (fun c => c != '.')
  ⟨(main_domain.map (fun c => if c = '-' then ' ' else c)).map
      (fun c => if c = '_' then ' ' else c)⟩

/-- app/utils/url_parser.py, extract_domain_from_url: the netloc with a
leading www. stripped. -/
def extract_domain_from_url (url : String) : String :=
  ⟨stripWww (netlocOf url).toList⟩

/-! ## main.py API boundary -/

/-- FastAPI HTTPException with a status code and detail message. -/
structure HTTPExc where
  status_code : Nat
  detail : String
deriving DecidableEq, Repr

/-- Response of POST /generate and GET /job/{job_id} (app/schemas/response.py). -/
structure JobResponse where
  job_id : String
  status : JobStatus
deriving DecidableEq, Repr

/-- The job created by main.generate: Pending, with the request URL and no
domain, report or error. -/
def createJob (jobId url : String) : ScreenerJob :=
  { id := jobId, status := JobStatus.pending, url := url }

/-- main.py, generate: store a fresh Pending job and answer with its id.
The uuid is passed in as `jobId`; the background orchestration task is
modelled separately by generate_report_async. -/
def generate (db : JobsDb) (jobId url : String) : JobsDb × JobResponse :=
  (dbSet db jobId (createJob jobId url), ⟨jobId, JobStatus.pending⟩)

/-- main.py, get_job_status (GET /job/\x7bjob_id\x7d). -/
def get_job_status (db : JobsDb) (jobId : String) : Except HTTPExc JobResponse :=
  match dbGet db jobId with
  | none => .error ⟨404, "Job not found"⟩
  | some job => .ok ⟨jobId, job.status⟩

/-- main.py, get_report (GET /report/\x7bjob_id\x7d). -/
def get_report (db : JobsDb) (jobId : String) :
    Except HTTPExc (Option ReportModel) :=
  match dbGet db jobId with
  | none => .error ⟨404, "Job not found"⟩
  | some job =>
      if job.status ≠ JobStatus.completed then
        .error ⟨400, "Report not yet ready. Current status: " ++ job.status.str⟩
      else .ok job.report

/-! ## app/data_sources: web research fan-out

`OpenaiWebSearch.search_on_website` wraps its whole body in try/except and
returns `WebSearchResponse(content="N/A", link="N/A")` on any exception, so
as seen from the caller each topic search is a total operation whose
input is the combined outcome of the LLM call plus JSON parsing. -/

/-- app/data_sources/openai_websearch.py, class WebSearchResponse
(as a dict after .dict(): content and link fields). -/
structure WebAnswer where
  content : String
  link : String
deriving DecidableEq, Repr

/-- The five research topics of WebResearcher.get_company_info
(app/data_sources/web_searcher.py, info_topics). -/
inductive Topic where
  | company_name
  | business_model
  | products_services
  | market
  | team
deriving DecidableEq, Repr

/-- app/data_sources/openai_websearch.py, search_on_website: the try block
(LLM call, parse_json_markdown, WebSearchResponse construction) either
produces an answer or raises; any exception is caught and replaced by the
N/A answer. -/
def search_on_website (outcome : Except String WebAnswer) : WebAnswer :=
  match outcome with
  | .ok r => r
  | .error _ => ⟨"N/A", "N/A"⟩

/-- The merged per-topic results of WebResearcher.get_company_info
(app/data_sources/web_searcher.py): the dict keyed by the five topics. -/
structure WebsiteData where
  company_name : WebAnswer
  business_model : WebAnswer
  products_services : WebAnswer
  market : WebAnswer
  team : WebAnswer
deriving DecidableEq, Repr

/-- The raw data bag built in generate_report_async
(app/processors/report_generator.py, lines 77-86). -/
structure RawData where
  company_name : String
  url : String
  website_data : WebsiteData
deriving DecidableEq, Repr

/-- Environment: the behaviour of the external collaborators during one
orchestration run.  `topicOutcome t` is the outcome of the try block of
search_on_website for topic `t`; each section generator maps the raw data
bag it is given to a produced Markdown string or a raised exception. -/
structure Env where
  topicOutcome : Topic → Except String WebAnswer
  overviewSection : RawData → Except String String
  productSection : RawData → Except String String
  marketSection : RawData → Except String String

/-- app/data_sources/web_searcher.py, WebResearcher.get_company_info:
gather the five fetch_info tasks (each total: search_on_website catches its
own exceptions, so the fetch_info except branch is unreachable) and merge
their answers into the results dict. -/
def get_company_info (env : Env) : WebsiteData :=
  { company_name := search_on_website (env.topicOutcome Topic.company_name)
    business_model := search_on_website (env.topicOutcome Topic.business_model)
    products_services := search_on_website (env.topicOutcome Topic.products_services)
    market := search_on_website (env.topicOutcome Topic.market)
    team := search_on_website (env.topicOutcome Topic.team) }

/-- The company-name override in generate_report_async (lines 74-75):
`if website_data["company_name"] and len(...["content"]) > 3` — the per-topic
value is a two-key dict and hence always truthy, so the guard reduces to the
length test. -/
def resolveCompanyName (derived : String) (wd : WebsiteData) : String :=
  if 3 < wd.company_name.content.length then wd.company_name.content else derived

/-- The raw data bag assembled by generate_report_async from the URL and the
web research results (lines 56, 74-86). -/
def rawDataOf (url : String) (wd : WebsiteData) : RawData :=
  { company_name := resolveCompanyName (extract_company_name_from_url url) wd
    url := url
    website_data := wd }

/-- app/processors/report_generator.py, _generate_report_sections:
`asyncio.gather(*tasks)` WITHOUT return_exceptions — if any section task
raises, gather re-raises that exception (modelled as the first failure in
task order); otherwise the three results fill the report fields in order. -/
def _generate_report_sections (env : Env) (raw : RawData) :
    Except String ReportModel :=
  match env.overviewSection raw, env.productSection raw, env.marketSection raw with
  | .ok o, .ok p, .ok m =>
      .ok { company_overview := some o
            product_business_model := some p
            market_analysis := some m }
  | .error e, _, _ => .error e
  | _, .error e, _ => .error e
  | _, _, .error e => .error e

/-- The job after the first atomic segment of generate_report_async
(lines 51-53): status set to Processing, domain recorded. -/
def toProcessing (job : ScreenerJob) (url : String) : ScreenerJob :=
  { job with status := JobStatus.processing
             domain := some (extract_domain_from_url url) }

/-- The job after the final segment: on section success the report is
attached and the status set to Completed (lines 92-94); a raised exception
is handled by the except branch, which sets Failed and the error message
(lines 103-107). -/
def finalizeJob (job : ScreenerJob) (secs : Except String ReportModel) :
    ScreenerJob :=
  match secs with
  | .ok report => { job with report := some report, status := JobStatus.completed }
  | .error e => { job with status := JobStatus.failed, error := some e }

/-- The try block of generate_report_async
(app/processors/report_generator.py, lines 49-98): returns the store as
mutated so far together with the raised exception, if any.  A missing job id
raises KeyError at `jobs_db[self.job_id]` before any mutation. -/
def tryGenerateReport (db : JobsDb) (jobId url : String) (env : Env) :
    JobsDb × Option String :=
  match dbGet db jobId with
  | none => (db, some ("KeyError: " ++ jobId))
  | some job =>
      let job1 := toProcessing job url
      let db1 := dbSet db jobId job1
      let wd := get_company_info env
      let raw := rawDataOf url wd
      match _generate_report_sections env raw with
      | .error e => (db1, some e)
      | .ok report =>
          (dbSet db1 jobId
            { job1 with report := some report, status := JobStatus.completed },
           none)

/-- app/processors/report_generator.py, generate_report_async: the try block
followed by the catch-all except branch, which sets the job to Failed with
the exception message only when the id is still present in the store. -/
def generate_report_async (db : JobsDb) (jobId url : String) (env : Env) :
    JobsDb :=
  match tryGenerateReport db jobId url env with
  | (db', none) => db'
  | (db', some e) =>
      match dbGet db' jobId with
      | none => db'
      | some job =>
          dbSet db' jobId
            { job with status := JobStatus.failed, error := some e }

/-- The observable states of one job from its creation by main.generate
through generate_report_async.  asyncio interleaves coroutines only at await
points, so the store is observable exactly at: creation, after the first
atomic segment (Processing), and after the final segment (terminal). -/
def lifecycleTrace (jobId url : String) (env : Env) : List ScreenerJob :=
  let j0 := createJob jobId url
  let j1 := toProcessing j0 url
  [j0, j1,
   finalizeJob j1 (_generate_report_sections env (rawDataOf url (get_company_info env)))]

/-- Spec state machine: the only allowed status transitions. -/
def statusStep (a b : JobStatus) : Prop :=
  (a = JobStatus.pending ∧ b = JobStatus.processing) ∨
  (a = JobStatus.processing ∧ (b = JobStatus.completed ∨ b = JobStatus.failed))

instance (a b : JobStatus) : Decidable (statusStep a b) := by
  unfold statusStep
  infer_instance

/-- Terminal statuses. -/
def isTerminal (s : JobStatus) : Prop :=
  s = JobStatus.completed ∨ s = JobStatus.failed

instance (s : JobStatus) : Decidable (isTerminal s) := by
  unfold isTerminal
  infer_instance

/-- Spec invariant on a job record: the report is present iff the status is
Completed, and the error is present iff the status is Failed. -/
def jobFieldInvariant (j : ScreenerJob) : Prop :=
  (j.report.isSome ↔ j.status = JobStatus.completed) ∧
  (j.error.isSome ↔ j.status = JobStatus.failed)

instance (j : ScreenerJob) : Decidable (jobFieldInvariant j) := by
  unfold jobFieldInvariant
  infer_instance

/-! ## app/core/openai_api.py -/

/-- app/constants.py: OPENAI_MODEL. -/
def OPENAI_MODEL : String := "gpt-4.1-2025-04-14"

/-- app/core/openai_api.py, MODEL_COSTS: static price table, per-million-token
prompt and completion prices, keyed by model identifier. -/
def MODEL_COSTS : List (String × ℚ × ℚ) :=
  [("gpt-4.1-2025-04-14", 2, 8),
   ("gpt-4o-2024-11-20", 5/2, 10),
   ("gpt-4o-2024-05-13", 5, 15),
   ("o1-mini", 3, 12),
   ("o1-preview", 15, 60),
   ("gpt-4o", 5/2, 10),
   ("gpt-4o-mini", 15/100, 6/10),
   ("gpt-4o-search-preview", 5/2, 10)]

/-- Dictionary lookup `MODEL_COSTS[model]` (None models the KeyError case). -/
def lookupModelCost (model : String) : Option (ℚ × ℚ) :=
  (MODEL_COSTS.find? (fun e => e.1 = model)).map (·.2)

/-- Message roles of the chat-completion request. -/
inductive Role where
  | system
  | user
deriving DecidableEq, Repr

/-- One chat message. -/
structure ChatMessage where
  role : Role
  content : String
deriving DecidableEq, Repr

/-- The request get_openai_response sends to the backend: the message list
plus the optional sampling parameters. -/
structure ChatRequest where
  model : String
  messages : List ChatMessage
  max_tokens : Option Nat
  temperature : Option ℚ
  seed : Option Nat
deriving DecidableEq, Repr

/-- The `model.startswith(p)` test. -/
def startsWithB (s p : String) : Bool :=
  p.toList.isPrefixOf s.toList

/-- app/core/openai_api.py, lines 84-111: the calling convention chosen by
inspecting the model identifier.  Models whose id starts with `o1-` or
`gpt-4o-search` get a single user-role message and no sampling parameters;
every other model gets a system-role message, the user message, max_tokens,
temperature 0.5 and the fixed seed 666. -/
def buildRequest (model prompt system_prompt : String) (max_tokens : Nat) :
    ChatRequest :=
  if startsWithB model "o1-" || startsWithB model "gpt-4o-search" then
    { model := model
      messages := [⟨Role.user, prompt⟩]
      max_tokens := none
      temperature := none
      seed := none }
  else
    { model := model
      messages := [⟨Role.system, system_prompt⟩, ⟨Role.user, prompt⟩]
      max_tokens := some max_tokens
      temperature := some (1/2)
      seed := some 666 }

/-- Line 77: `system_prompt = system_prompt or "You are an AI publishing
assistant"` (None and the empty string are falsy). -/
def effectiveSystemPrompt (system_prompt : Option String) : String :=
  match system_prompt with
  | some s => if s.toList.isEmpty then "You are an AI publishing assistant" else s
  | none => "You are an AI publishing assistant"

/-- An exception raised by one backend call: a RateLimitError or any other
exception. -/
inductive APIError where
  | rateLimit (msg : String)
  | otherExc (msg : String)
deriving DecidableEq, Repr

instance {ε α : Type} [DecidableEq ε] [DecidableEq α] : DecidableEq (Except ε α)
  | .error a, .error b => decidable_of_iff (a = b) (by simp)
  | .error _, .ok _ => isFalse (by simp)
  | .ok _, .error _ => isFalse (by simp)
  | .ok a, .ok b => decidable_of_iff (a = b) (by simp)

/-- Result of the retry loop of get_openai_response: the returned value or
propagated exception, the backoff sleeps performed (in seconds, in order),
and how many backend calls were attempted. -/
structure RetryOutcome (α : Type) where
  result : Except APIError α
  sleeps : List Nat
  attemptsMade : Nat
deriving Repr, DecidableEq

/-- app/core/openai_api.py, lines 82-133: `for attempt in range(max_retries)`
with exponential backoff.  `backend n` is the outcome of the (n+1)-th call to
the chat-completion endpoint.  `remaining` counts the loop iterations left
(`max_retries - attempt`); on a RateLimitError with `attempt <
max_retries - 1` the loop sleeps `backoff` seconds, doubles the backoff and
retries, otherwise it re-raises.  Falling out of the loop raises
RuntimeError (unreachable from the initial call). -/
def retryFrom (backend : Nat → Except APIError α) (max_retries : Nat) :
    Nat → Nat → Nat → RetryOutcome α
  | 0, attempt, _ =>
      ⟨.error (.otherExc "RuntimeError: Unable to get a valid OpenAI response after max retries."),
       [], attempt⟩
  | remaining + 1, attempt, backoff =>
      match backend attempt with
      | .ok a => ⟨.ok a, [], attempt + 1⟩
      | .error (.rateLimit m) =>
          if attempt < max_retries - 1 then
            let rest := retryFrom backend max_retries remaining (attempt + 1) (backoff * 2)
            ⟨rest.result, backoff :: rest.sleeps, rest.attemptsMade⟩
          else ⟨.error (.rateLimit m), [], attempt + 1⟩
      | .error (.otherExc m) => ⟨.error (.otherExc m), [], attempt + 1⟩

/-- app/core/openai_api.py, get_openai_response: max_retries = 5, initial
backoff 1 second, attempts numbered from 0. -/
def get_openai_response (backend : Nat → Except APIError α) : RetryOutcome α :=
  retryFrom backend 5 5 0 1

/-! ## app/core/llm_api_wrapper.py -/

/-- Token usage reported by the backend (response.usage). -/
structure Usage where
  prompt_tokens : Nat
  completion_tokens : Nat
deriving DecidableEq, Repr

/-- The parts of a backend chat completion consumed by LLMAPIWrapper:
usage counts plus the first choice message (content and annotation list). -/
structure LLMResponse where
  usage : Usage
  content : String
  annots : List String
deriving DecidableEq, Repr

/-- The value LLMAPIWrapper.get_response returns: the plain message content,
or a dict of the annotation list and content when annotations are present. -/
inductive LLMResult where
  | plain (content : String)
  | annotated (annots : List String) (content : String)
deriving DecidableEq, Repr

/-- Lines 30-34: wrap the message as a dict when the annotation list is
truthy (non-empty), else return the bare content. -/
def extractResult (response : LLMResponse) : LLMResult :=
  if response.annots.isEmpty then .plain response.content
  else .annotated response.annots response.content

/-- Line 22: `model = model or OPENAI_MODEL` (None and "" are falsy). -/
def effectiveModel (model : Option String) : String :=
  match model with
  | some m => if m.toList.isEmpty then OPENAI_MODEL else m
  | none => OPENAI_MODEL

/-- app/core/llm_api_wrapper.py, LLMAPIWrapper.get_response, given the
accumulated cost so far and the outcome of the underlying
get_openai_response call: on success look the model up in MODEL_COSTS
(KeyError when absent), add `(prompt_cost + completion_cost) / 1000000` to
the accumulator and return the extracted message; on failure the exception
propagates and the accumulator is untouched.  The returned pair is
(call outcome, new accumulated_cost). -/
def get_response (accumulated_cost : ℚ) (model : Option String)
    (backendOutcome : Except APIError LLMResponse) :
    Except String LLMResult × ℚ :=
  let m := effectiveModel model
  match backendOutcome with
  | .error (.rateLimit msg) => (.error msg, accumulated_cost)
  | .error (.otherExc msg) => (.error msg, accumulated_cost)
  | .ok response =>
      match lookupModelCost m with
      | none => (.error ("KeyError: " ++ m), accumulated_cost)
      | some prices =>
          let prompt_cost := prices.1 * response.usage.prompt_tokens
          let completion_cost := prices.2 * response.usage.completion_tokens
          let total_cost := (prompt_cost + completion_cost) / 1000000
          (.ok (extractResult response), accumulated_cost + total_cost)

/-- Concurrency model of the Cost Accumulator: asyncio runs coroutines on a
single thread, and `self.accumulated_cost += total_cost` (line 29) contains
no await between the read and the write, so each update is one atomic step.
A complete schedule of M concurrent get_response calls therefore applies
their M cost additions in some completion order. -/
def runCostUpdates (init : ℚ) (completionOrder : List ℚ) : ℚ :=
  completionOrder.foldl (· + ·) init

/-! ## app/core/report_generator.py: fan-out collector

`asyncio.gather(*tasks, return_exceptions=True)` (line 60).  Each task is an
independent operation with outcome `Except String α`; tasks complete in an
arbitrary order (a permutation of their indices), and gather writes each
outcome of each completed task into the slot of its original index. -/

/-- Write the outcome of each completed operation into its own slot, in completion
order, starting from all-empty slots. -/
def fillSlots (ops : List (Except String α)) (completionOrder : List Nat) :
    List (Option (Except String α)) :=
  completionOrder.foldl (fun slots i => slots.set i ops[i]?)
    (List.replicate ops.length none)

/-- asyncio.gather(*ops, return_exceptions=True): the outcome list, in input
order, assembled from the completion events. -/
def gatherReturnExceptions (ops : List (Except String α))
    (completionOrder : List Nat) : List (Except String α) :=
  (fillSlots ops completionOrder).map (fun slot => slot.getD (.error "pending"))

/-- An outcome entry is an error marker. -/
def isErrorOutcome (o : Except String α) : Bool :=
  match o with
  | .error _ => true
  | .ok _ => false

/-- app/core/report_generator.py, _safe_extract: index out of range yields
the range error marker; an exception entry yields its message as an error
marker; otherwise the result is returned as data.  The dict values
`{"error": msg}` and plain results are modelled by the two Except
constructors. -/
def _safe_extract (results : List (Except String α)) (index : Nat) :
    Except String α :=
  if results.length ≤ index then .error "Result index out of range"
  else
    match results[index]? with
    | some (.error e) => .error e
    | some (.ok d) => .ok d
    | none => .error "Result index out of range"

/-- Projection of the merged results dict at one topic key. -/
def topicAnswer (wd : WebsiteData) : Topic → WebAnswer
  | .company_name => wd.company_name
  | .business_model => wd.business_model
  | .products_services => wd.products_services
  | .market => wd.market
  | .team => wd.team

/-- A backend that raises RateLimitError on every call. -/
def alwaysRateLimited : Nat → Except APIError Unit :=
  fun _ => .error (.rateLimit "Rate limit exceeded")

/-- A backend whose first call raises a non-rate-limit exception. -/
def failsAtOnce : Nat → Except APIError Unit :=
  fun _ => .error (.otherExc "APIConnectionError")

/-- An environment where every web-research topic succeeds but the overview
section generator raises. -/
def envSectionFailure : Env :=
  { topicOutcome := fun _ => .ok ⟨"Acme Robotics", "https://acme.co/about"⟩
    overviewSection := fun _ => .error "LLM failure in overview section"
    productSection := fun raw => .ok ("Products of " ++ raw.company_name)
    marketSection := fun raw => .ok ("Market of " ++ raw.company_name) }

/-- An environment where the market web-research topic fails and every
section generator succeeds (the market section echoing the market answer). -/
def envTopicFailure : Env :=
  { topicOutcome := fun t =>
      match t with
      | .market => .error "HTTPError: 500 Server Error"
      | _ => .ok ⟨"Acme Robotics", "https://acme.co/about"⟩
    overviewSection := fun raw => .ok ("# " ++ raw.company_name)
    productSection := fun _ => .ok "Products"
    marketSection := fun raw => .ok ("Market: " ++ raw.website_data.market.content) }

/-- An environment where all topics and sections succeed and every section
references the company name from the raw data bag it consumes. -/
def envAcmeRobotics : Env :=
  { topicOutcome := fun t =>
      match t with
      | .company_name => .ok ⟨"Acme Robotics", "https://acme.co/about"⟩
      | _ => .ok ⟨"Details", "https://acme.co/"⟩
    overviewSection := fun raw => .ok ("# " ++ raw.company_name)
    productSection := fun raw => .ok ("Products of " ++ raw.company_name)
    marketSection := fun raw => .ok ("Market of " ++ raw.company_name) }

/-! ## Helper lemmas -/

theorem dbGet_dbSet_self (db : JobsDb) (k : String) (v : ScreenerJob) :
    dbGet (dbSet db k v) k = some v := by
  induction db with
  | nil => simp [dbGet, dbSet]
  | cons hd tl ih =>
      obtain ⟨k1, v1⟩ := hd
      by_cases h : k1 = k
      · simp [dbSet, dbGet, h]
      · simp [dbSet, dbGet, h, ih]

theorem foldl_set_getElem? {α : Type} (ops : List (Except String α))
    (order : List Nat) (init : List (Option (Except String α))) (j : Nat) :
    (order.foldl (fun slots i => slots.set i ops[i]?) init)[j]? =
      if j ∈ order ∧ j < init.length then some ops[j]? else init[j]? := by
  induction order generalizing init with
  | nil => simp
  | cons i rest ih =>
      rw [List.foldl_cons, ih, List.length_set, List.getElem?_set]
      by_cases h3 : j < init.length
      · by_cases h1 : j ∈ rest
        · simp [h1, h3, List.mem_cons]
        · by_cases h2 : i = j
          · subst h2
            simp [h1, h3, List.mem_cons]
          · have h5 : ¬ j = i := fun hh => h2 hh.symm
            simp [h1, h3, h2, h5, List.mem_cons]
      · have h4 : init[j]? = none := List.getElem?_eq_none (Nat.le_of_not_lt h3)
        by_cases h2 : i = j <;> simp [h2, h3, h4]

theorem gatherReturnExceptions_eq {α : Type} (ops : List (Except String α))
    (order : List Nat) (h : order.Perm (List.range ops.length)) :
    gatherReturnExceptions ops order = ops := by
  apply List.ext_getElem?
  intro j
  unfold gatherReturnExceptions fillSlots
  rw [List.getElem?_map, foldl_set_getElem?, List.length_replicate]
  by_cases hj : j < ops.length
  · have hmem : j ∈ order := h.mem_iff.2 (List.mem_range.2 hj)
    have hx : ops[j]? = some ops[j] := List.getElem?_eq_getElem hj
    simp [hmem, hj, hx]
  · have hnot : j ∉ order := fun hc => hj (List.mem_range.1 (h.mem_iff.1 hc))
    simp [hnot, List.getElem?_replicate, hj,
      List.getElem?_eq_none (Nat.le_of_not_lt hj)]

theorem foldl_add_eq_add_sum (init : ℚ) (l : List ℚ) :
    l.foldl (· + ·) init = init + l.sum := by
  induction l generalizing init with
  | nil => simp
  | cons x xs ih => rw [List.foldl_cons, ih, List.sum_cons]; ring

/-! ## Claims -/

/-- C2: for any fan-out collector invocation (asyncio.gather with
return_exceptions=True, app/core/report_generator.py line 60) over a
sequence of operations of which exactly K fail, and any completion order,
the outcome sequence has the length of the input, each slot holds the
outcome of the operation of the same index (so no failure aborts or alters
a sibling), exactly K entries are error markers, and _safe_extract maps each
in-range slot to that same outcome. -/
theorem c2_fan_out_collector {α : Type} (ops : List (Except String α))
    (order : List Nat) (K : Nat)
    (hperm : order.Perm (List.range ops.length))
    (hK : ops.countP isErrorOutcome = K) :
    (gatherReturnExceptions ops order).length = ops.length ∧
    (∀ i : Nat, (gatherReturnExceptions ops order)[i]? = ops[i]?) ∧
    (gatherReturnExceptions ops order).countP isErrorOutcome = K ∧
    (∀ i, i < ops.length →
      some (_safe_extract (gatherReturnExceptions ops order) i) = ops[i]?) := by
  rw [gatherReturnExceptions_eq ops order hperm]
  refine ⟨rfl, fun i => rfl, hK, ?_⟩
  intro i hi
  unfold _safe_extract
  rw [if_neg (by omega), List.getElem?_eq_getElem hi]
  cases ops[i] <;> rfl

/-- C2 witness: four operations, two failing, completing in the order
2, 0, 3, 1. -/
theorem c2_fan_out_collector_witness :
    (gatherReturnExceptions
        [Except.ok 10, Except.error "e1", Except.ok 30, Except.error "e2"]
        [2, 0, 3, 1]).countP isErrorOutcome = 2 :=
  (c2_fan_out_collector
    [Except.ok 10, Except.error "e1", Except.ok 30, Except.error "e2"]
    [2, 0, 3, 1] 2 (by decide) (by decide)).2.2.1

/-- C6: the Cost Accumulator update `self.accumulated_cost += total_cost`
(app/core/llm_api_wrapper.py line 29) has no await between its read and its
write, so under asyncio each update is one atomic step and a schedule of M
concurrent calls is a completion order of their M additions: for every
completion order of M updates of cost C each, the final accumulator is
exactly the initial value plus M times C. -/
theorem c6_cost_accumulator_no_lost_updates (init C : ℚ) (M : Nat)
    (order : List ℚ) (h : order.Perm (List.replicate M C)) :
    runCostUpdates init order = init + M * C := by
  unfold runCostUpdates
  rw [foldl_add_eq_add_sum, h.sum_eq, List.sum_replicate, nsmul_eq_mul]

/-- C6 witness: three concurrent calls of cost 9/400 each. -/
theorem c6_cost_accumulator_witness :
    runCostUpdates 0 [9/400, 9/400, 9/400] = 0 + (3 : Nat) * ((9 : ℚ)/400) :=
  c6_cost_accumulator_no_lost_updates 0 (9/400) 3 [9/400, 9/400, 9/400]
    (by exact List.Perm.refl _)

theorem retryFrom_attempts_le {α : Type} (backend : Nat → Except APIError α)
    (mr r a b : Nat) : (retryFrom backend mr r a b).attemptsMade ≤ a + r := by
  induction r generalizing a b with
  | zero => simp [retryFrom]
  | succ r ih =>
      unfold retryFrom
      cases hb : backend a with
      | ok x => simp
      | error err =>
          cases err with
          | rateLimit m =>
              by_cases h : a < mr - 1
              · simpa [h] using le_trans (ih (a + 1) (b * 2)) (by omega)
              · simp [h]
          | otherExc m => simp

/-- C1: from creation by the API boundary through every observable step of
generate_report_async, the job status follows Pending, Processing, then
Completed or Failed, never leaving a terminal state, and at every observable
state the report is present iff the status is Completed and the error is
present iff the status is Failed; moreover the store after running the
orchestration on a freshly created job holds exactly the last state of that
trace. -/
theorem c1_job_lifecycle_state_machine (jobId url : String) (env : Env) :
    (∀ j ∈ lifecycleTrace jobId url env, jobFieldInvariant j) ∧
    List.Chain' (fun a b => statusStep a b ∧ ¬ isTerminal a)
      ((lifecycleTrace jobId url env).map ScreenerJob.status) ∧
    (∀ db : JobsDb,
      dbGet (generate_report_async (generate db jobId url).1 jobId url env) jobId =
        (lifecycleTrace jobId url env).getLast?) := by
  cases hsecs : _generate_report_sections env (rawDataOf url (get_company_info env)) with
  | ok report =>
      refine ⟨?_, ?_, ?_⟩
      · intro j hj
        simp only [lifecycleTrace, hsecs, List.mem_cons, List.mem_singleton,
          List.not_mem_nil, or_false] at hj
        rcases hj with h | h | h <;> subst h <;>
          simp [jobFieldInvariant, createJob, toProcessing, finalizeJob]
      · simp [lifecycleTrace, hsecs, createJob, toProcessing, finalizeJob]
        decide
      · intro db
        simp [generate, generate_report_async, tryGenerateReport, hsecs,
          dbGet_dbSet_self, lifecycleTrace, createJob, toProcessing, finalizeJob]
  | error e =>
      refine ⟨?_, ?_, ?_⟩
      · intro j hj
        simp only [lifecycleTrace, hsecs, List.mem_cons, List.mem_singleton,
          List.not_mem_nil, or_false] at hj
        rcases hj with h | h | h <;> subst h <;>
          simp [jobFieldInvariant, createJob, toProcessing, finalizeJob]
      · simp [lifecycleTrace, hsecs, createJob, toProcessing, finalizeJob]
        decide
      · intro db
        simp [generate, generate_report_async, tryGenerateReport, hsecs,
          dbGet_dbSet_self, lifecycleTrace, createJob, toProcessing, finalizeJob]

/-- C1 witness: the invariant at the created job and the store agreement at
a concrete run. -/
theorem c1_job_lifecycle_witness :
    jobFieldInvariant (createJob "job1" "https://acme.co/") ∧
    dbGet (generate_report_async
        (generate [] "job1" "https://acme.co/").1 "job1" "https://acme.co/"
        envAcmeRobotics) "job1" =
      (lifecycleTrace "job1" "https://acme.co/" envAcmeRobotics).getLast? :=
  ⟨(c1_job_lifecycle_state_machine "job1" "https://acme.co/" envAcmeRobotics).1
      (createJob "job1" "https://acme.co/") (by simp [lifecycleTrace]),
   (c1_job_lifecycle_state_machine "job1" "https://acme.co/" envAcmeRobotics).2.2 []⟩

/-- C10: generate_report_async catches every exception escaping its
pipeline: when the job id is absent from the store the caught KeyError
leaves the store untouched and nothing is signalled; when the id is present
and the pipeline raises, the job is set to Failed with the exception message
in the error field. -/
theorem c10_generate_report_catches_all (db : JobsDb) (jobId url : String)
    (env : Env) :
    (dbGet db jobId = none → generate_report_async db jobId url env = db) ∧
    (∀ job, dbGet db jobId = some job →
      ∀ e, _generate_report_sections env (rawDataOf url (get_company_info env)) =
          Except.error e →
        dbGet (generate_report_async db jobId url env) jobId =
          some { toProcessing job url with
                 status := JobStatus.failed, error := some e }) := by
  constructor
  · intro h
    simp [generate_report_async, tryGenerateReport, h]
  · intro job hjob e hsecs
    simp [generate_report_async, tryGenerateReport, hjob, hsecs, dbGet_dbSet_self]

/-- C10 witness: an absent id leaves the empty store unchanged; a raising
section on a present id yields Failed with the message. -/
theorem c10_generate_report_witness :
    generate_report_async [] "job1" "https://acme.co/" envSectionFailure = [] ∧
    dbGet (generate_report_async [("job1", createJob "job1" "https://acme.co/")]
        "job1" "https://acme.co/" envSectionFailure) "job1" =
      some { toProcessing (createJob "job1" "https://acme.co/") "https://acme.co/" with
             status := JobStatus.failed,
             error := some "LLM failure in overview section" } :=
  ⟨(c10_generate_report_catches_all [] "job1" "https://acme.co/" envSectionFailure).1 rfl,
   (c10_generate_report_catches_all [("job1", createJob "job1" "https://acme.co/")]
      "job1" "https://acme.co/" envSectionFailure).2
      (createJob "job1" "https://acme.co/") rfl
      "LLM failure in overview section" rfl⟩

/-- C3 counterexample: with every data source succeeding and one section
generator raising, the job ends Failed, not Completed — the section failure
is not converted into an error marker inside the Result Container, and it is
an in-stage failure, not orchestration glue, that drives the job to Failed. -/
theorem c3_counterexample :
    (dbGet (generate_report_async [("job1", createJob "job1" "https://acme.co/")]
        "job1" "https://acme.co/" envSectionFailure) "job1").map ScreenerJob.status =
      some JobStatus.failed ∧
    (dbGet (generate_report_async [("job1", createJob "job1" "https://acme.co/")]
        "job1" "https://acme.co/" envSectionFailure) "job1").map ScreenerJob.error =
      some (some "LLM failure in overview section") := by
  exact ⟨rfl, rfl⟩

/-- C3 amended: a failure of an individual data-source topic fetch is
isolated — search_on_website converts it to an N/A marker in the raw data
bag and the job can still reach Completed — but a failure of an individual
section generation is not isolated: it escapes the section fan-out
(asyncio.gather without return_exceptions) and drives the job to Failed with
the exception message. -/
theorem c3_failure_isolation_amended (db : JobsDb) (jobId url : String)
    (env : Env) (job : ScreenerJob) (hjob : dbGet db jobId = some job) :
    (∀ t e, env.topicOutcome t = Except.error e →
        topicAnswer (get_company_info env) t = ⟨"N/A", "N/A"⟩) ∧
    (∀ report,
      _generate_report_sections env (rawDataOf url (get_company_info env)) =
          Except.ok report →
        (dbGet (generate_report_async db jobId url env) jobId).map ScreenerJob.status =
          some JobStatus.completed) ∧
    (∀ e,
      _generate_report_sections env (rawDataOf url (get_company_info env)) =
          Except.error e →
        (dbGet (generate_report_async db jobId url env) jobId).map ScreenerJob.status =
          some JobStatus.failed ∧
        (dbGet (generate_report_async db jobId url env) jobId).map ScreenerJob.error =
          some (some e)) := by
  refine ⟨?_, ?_, ?_⟩
  · intro t e he
    cases t <;> simp [topicAnswer, get_company_info, search_on_website, he]
  · intro report hsecs
    simp [generate_report_async, tryGenerateReport, hjob, hsecs, dbGet_dbSet_self]
  · intro e hsecs
    simp [generate_report_async, tryGenerateReport, hjob, hsecs, dbGet_dbSet_self]

/-- C3 witness: the failed market topic appears as an N/A marker, its
section consumes the marker, and the job completes. -/
theorem c3_failure_isolation_witness :
    topicAnswer (get_company_info envTopicFailure) Topic.market = ⟨"N/A", "N/A"⟩ ∧
    (dbGet (generate_report_async [("job1", createJob "job1" "https://acme.co/")]
        "job1" "https://acme.co/" envTopicFailure) "job1").map ScreenerJob.status =
      some JobStatus.completed :=
  ⟨(c3_failure_isolation_amended [("job1", createJob "job1" "https://acme.co/")]
      "job1" "https://acme.co/" envTopicFailure
      (createJob "job1" "https://acme.co/") rfl).1
      Topic.market "HTTPError: 500 Server Error" rfl,
   (c3_failure_isolation_amended [("job1", createJob "job1" "https://acme.co/")]
      "job1" "https://acme.co/" envTopicFailure
      (createJob "job1" "https://acme.co/") rfl).2.1
      { company_overview := some "# Acme Robotics"
        product_business_model := some "Products"
        market_analysis := some "Market: N/A" } rfl⟩

/-- C4 counterexample: under persistent rate limiting the loop performs the
backoff sleeps 1, 2, 4, 8 — four retries between the five attempts — so the
interval sequence 1, 2, 4, 8, 16 claimed by the spec never occurs (16 is
never slept). -/
theorem c4_counterexample :
    (get_openai_response alwaysRateLimited).sleeps = [1, 2, 4, 8] ∧
    (get_openai_response alwaysRateLimited).sleeps ≠ [1, 2, 4, 8, 16] ∧
    (get_openai_response alwaysRateLimited).attemptsMade = 5 ∧
    (get_openai_response alwaysRateLimited).result =
      Except.error (APIError.rateLimit "Rate limit exceeded") := by
  refine ⟨rfl, by decide, rfl, rfl⟩

/-- C4 amended: the backend is called at most 5 times; under persistent
rate-limit signals the backoff delays are 1, 2, 4, 8 (doubling, one before
each of the four retries), the 5th attempt is made and its RateLimitError
propagates to the caller; a non-rate-limit failure propagates immediately
after a single attempt with no backoff. -/
theorem c4_retry_backoff_amended {α : Type} (backend : Nat → Except APIError α) :
    (get_openai_response backend).attemptsMade ≤ 5 ∧
    ((∀ n, n < 5 → ∃ m, backend n = Except.error (APIError.rateLimit m)) →
        (get_openai_response backend).sleeps = [1, 2, 4, 8] ∧
        (get_openai_response backend).attemptsMade = 5 ∧
        (get_openai_response backend).result = backend 4) ∧
    (∀ m, backend 0 = Except.error (APIError.otherExc m) →
        (get_openai_response backend).result = Except.error (APIError.otherExc m) ∧
        (get_openai_response backend).sleeps = [] ∧
        (get_openai_response backend).attemptsMade = 1) := by
  refine ⟨retryFrom_attempts_le backend 5 5 0 1, ?_, ?_⟩
  · intro h
    obtain ⟨m0, h0⟩ := h 0 (by omega)
    obtain ⟨m1, h1⟩ := h 1 (by omega)
    obtain ⟨m2, h2⟩ := h 2 (by omega)
    obtain ⟨m3, h3⟩ := h 3 (by omega)
    obtain ⟨m4, h4⟩ := h 4 (by omega)
    simp [get_openai_response, retryFrom, h0, h1, h2, h3, h4]
  · intro m hm
    simp [get_openai_response, retryFrom, hm]

/-- C4 witness: the amended behaviour at the persistently rate-limited
backend and at a backend whose first call raises a connection error. -/
theorem c4_retry_backoff_witness :
    (get_openai_response alwaysRateLimited).sleeps = [1, 2, 4, 8] ∧
    (get_openai_response failsAtOnce).result =
      Except.error (APIError.otherExc "APIConnectionError") ∧
    (get_openai_response failsAtOnce).attemptsMade = 1 :=
  ⟨((c4_retry_backoff_amended alwaysRateLimited).2.1
      (fun _ _ => ⟨"Rate limit exceeded", rfl⟩)).1,
   ((c4_retry_backoff_amended failsAtOnce).2.2 "APIConnectionError" rfl).1,
   ((c4_retry_backoff_amended failsAtOnce).2.2 "APIConnectionError" rfl).2.2⟩

/-- C5: for every successful generation call the cost added to the
accumulator is (prompt-tokens times prompt-unit-price plus completion-tokens
times completion-unit-price) divided by 1,000,000 with the unit prices read
from MODEL_COSTS; for an effective model absent from the table the call
fails with the KeyError (the UnknownModel error of the spec taxonomy) and
the accumulator is unchanged. -/
theorem c5_cost_accounting_per_call (acc : ℚ) (m? : Option String)
    (resp : LLMResponse) :
    (∀ pp cp, lookupModelCost (effectiveModel m?) = some (pp, cp) →
        get_response acc m? (Except.ok resp) =
          (Except.ok (extractResult resp),
           acc + (pp * resp.usage.prompt_tokens +
                  cp * resp.usage.completion_tokens) / 1000000)) ∧
    (lookupModelCost (effectiveModel m?) = none →
        get_response acc m? (Except.ok resp) =
          (Except.error ("KeyError: " ++ effectiveModel m?), acc)) := by
  constructor
  · intro pp cp h
    simp [get_response, h]
  · intro h
    simp [get_response, h]

/-- C5 witness: a gpt-4o call with 1000 prompt and 2000 completion tokens,
and a call with a model missing from the table. -/
theorem c5_cost_accounting_witness :
    get_response 0 (some "gpt-4o") (Except.ok ⟨⟨1000, 2000⟩, "text", []⟩) =
      (Except.ok (extractResult ⟨⟨1000, 2000⟩, "text", []⟩),
       0 + ((5/2) * ((1000 : Nat) : ℚ) + 10 * ((2000 : Nat) : ℚ)) / 1000000) ∧
    get_response 0 (some "o3-unknown") (Except.ok ⟨⟨1000, 2000⟩, "text", []⟩) =
      (Except.error ("KeyError: " ++ effectiveModel (some "o3-unknown")), 0) :=
  ⟨(c5_cost_accounting_per_call 0 (some "gpt-4o") ⟨⟨1000, 2000⟩, "text", []⟩).1
      (5/2) 10 rfl,
   (c5_cost_accounting_per_call 0 (some "o3-unknown") ⟨⟨1000, 2000⟩, "text", []⟩).2
      rfl⟩

/-- C7: when the id is in the store the status query returns the current
status; the report query returns the stored Result Container exactly when
the status is Completed and otherwise signals the 400 client error, so a
partial report is never served as complete; an unknown id gets 404 from both
queries. -/
theorem c7_status_and_report_queries (db : JobsDb) (jobId : String) :
    (∀ job, dbGet db jobId = some job →
        get_job_status db jobId = Except.ok ⟨jobId, job.status⟩ ∧
        (job.status = JobStatus.completed →
            get_report db jobId = Except.ok job.report) ∧
        (job.status ≠ JobStatus.completed →
            get_report db jobId =
              Except.error
                ⟨400, "Report not yet ready. Current status: " ++ job.status.str⟩)) ∧
    (dbGet db jobId = none →
        get_job_status db jobId = Except.error ⟨404, "Job not found"⟩ ∧
        get_report db jobId = Except.error ⟨404, "Job not found"⟩) := by
  constructor
  · intro job hjob
    refine ⟨by simp [get_job_status, hjob], ?_, ?_⟩
    · intro hc
      simp [get_report, hjob, hc]
    · intro hc
      simp [get_report, hjob, hc]
  · intro h
    exact ⟨by simp [get_job_status, h], by simp [get_report, h]⟩

/-- C7 witness: a pending job answers its status and a 400 on the report
query, a completed job serves its report, and an unknown id gets 404. -/
theorem c7_status_and_report_witness :
    get_job_status
        [("p1", { id := "p1", status := JobStatus.pending, url := "https://a.co/" })]
        "p1" =
      Except.ok ⟨"p1", JobStatus.pending⟩ ∧
    get_report
        [("p1", { id := "p1", status := JobStatus.pending, url := "https://a.co/" })]
        "p1" =
      Except.error ⟨400, "Report not yet ready. Current status: pending"⟩ ∧
    get_report
        [("c1", { id := "c1", status := JobStatus.completed, url := "https://a.co/",
                  report := some { company_overview := some "ov" } })]
        "c1" =
      Except.ok (some { company_overview := some "ov" }) ∧
    get_report [] "nope" = Except.error ⟨404, "Job not found"⟩ :=
  ⟨((c7_status_and_report_queries
      [("p1", { id := "p1", status := JobStatus.pending, url := "https://a.co/" })]
      "p1").1 _ rfl).1,
   ((c7_status_and_report_queries
      [("p1", { id := "p1", status := JobStatus.pending, url := "https://a.co/" })]
      "p1").1 _ rfl).2.2 (by decide),
   ((c7_status_and_report_queries
      [("c1", { id := "c1", status := JobStatus.completed, url := "https://a.co/",
                report := some { company_overview := some "ov" } })]
      "c1").1 _ rfl).2.1 rfl,
   ((c7_status_and_report_queries [] "nope").2 rfl).2⟩

/-- C8: the initial company name is derived from the URL host label (strip a
leading www., take the label before the first dot, replace hyphens and
underscores with spaces — https://acme.co/about yields acme); whenever the
web research resolves a company name longer than 3 characters, the raw data
bag consumed by every section generator carries that resolved name instead
of the derived one (and otherwise the derived name), and with the override
in place the job still runs to its terminal state, reaching Completed with
the three section outputs whenever they succeed on that bag. -/
theorem c8_company_name_resolution (jobId url : String) (env : Env) :
    extract_company_name_from_url "https://acme.co/about" = "acme" ∧
    extract_company_name_from_url "https://www.foo-bar_baz.com/about" = "foo bar baz" ∧
    (3 < (get_company_info env).company_name.content.length →
        (rawDataOf url (get_company_info env)).company_name =
          (get_company_info env).company_name.content) ∧
    (¬ 3 < (get_company_info env).company_name.content.length →
        (rawDataOf url (get_company_info env)).company_name =
          extract_company_name_from_url url) ∧
    (∀ o p m,
      env.overviewSection (rawDataOf url (get_company_info env)) = Except.ok o →
      env.productSection (rawDataOf url (get_company_info env)) = Except.ok p →
      env.marketSection (rawDataOf url (get_company_info env)) = Except.ok m →
        (lifecycleTrace jobId url env).getLast? = some
          { id := jobId, status := JobStatus.completed, url := url,
            domain := some (extract_domain_from_url url),
            report := some { company_overview := some o,
                             product_business_model := some p,
                             market_analysis := some m } }) := by
  refine ⟨rfl, rfl, ?_, ?_, ?_⟩
  · intro h
    simp [rawDataOf, resolveCompanyName, h]
  · intro h
    simp [rawDataOf, resolveCompanyName, h]
  · intro o p m ho hp hm
    simp [lifecycleTrace, _generate_report_sections, ho, hp, hm, createJob,
      toProcessing, finalizeJob]

/-- C8 witness: a resolved name Acme Robotics (length 13) overrides the
derived name acme and the completed report sections reference it. -/
theorem c8_company_name_witness :
    (rawDataOf "https://acme.co/about" (get_company_info envAcmeRobotics)).company_name =
      "Acme Robotics" ∧
    (lifecycleTrace "job1" "https://acme.co/about" envAcmeRobotics).getLast? = some
      { id := "job1", status := JobStatus.completed, url := "https://acme.co/about",
        domain := some (extract_domain_from_url "https://acme.co/about"),
        report := some { company_overview := some "# Acme Robotics",
                         product_business_model := some "Products of Acme Robotics",
                         market_analysis := some "Market of Acme Robotics" } } :=
  ⟨by
      have h := (c8_company_name_resolution "job1" "https://acme.co/about"
        envAcmeRobotics).2.2.1 (by decide)
      simpa using h,
   (c8_company_name_resolution "job1" "https://acme.co/about"
      envAcmeRobotics).2.2.2.2 "# Acme Robotics" "Products of Acme Robotics"
      "Market of Acme Robotics" rfl rfl rfl⟩

/-- C9: the calling convention is a pure function of the model identifier
prefix test: models starting with o1- or gpt-4o-search are called with a
single user-role message and no sampling parameters, every other model with
a system message plus user message, temperature 0.5, seed 666 and the token
limit; the same model always selects the same convention whatever the
prompts. -/
theorem c9_calling_convention (model prompt system_prompt : String) (mt : Nat) :
    ((startsWithB model "o1-" || startsWithB model "gpt-4o-search") = true →
        (buildRequest model prompt system_prompt mt).messages.map ChatMessage.role =
          [Role.user] ∧
        (buildRequest model prompt system_prompt mt).seed = none ∧
        (buildRequest model prompt system_prompt mt).temperature = none ∧
        (buildRequest model prompt system_prompt mt).max_tokens = none) ∧
    ((startsWithB model "o1-" || startsWithB model "gpt-4o-search") = false →
        (buildRequest model prompt system_prompt mt).messages.map ChatMessage.role =
          [Role.system, Role.user] ∧
        (buildRequest model prompt system_prompt mt).seed = some 666 ∧
        (buildRequest model prompt system_prompt mt).temperature = some (1/2) ∧
        (buildRequest model prompt system_prompt mt).max_tokens = some mt) ∧
    (∀ prompt2 system_prompt2 mt2,
        (buildRequest model prompt2 system_prompt2 mt2).messages.map ChatMessage.role =
          (buildRequest model prompt system_prompt mt).messages.map ChatMessage.role ∧
        (buildRequest model prompt2 system_prompt2 mt2).seed =
          (buildRequest model prompt system_prompt mt).seed ∧
        (buildRequest model prompt2 system_prompt2 mt2).temperature =
          (buildRequest model prompt system_prompt mt).temperature) := by
  refine ⟨?_, ?_, ?_⟩
  · intro h
    simp [buildRequest, h]
  · intro h
    simp [buildRequest, h]
  · intro prompt2 system_prompt2 mt2
    cases h : (startsWithB model "o1-" || startsWithB model "gpt-4o-search") <;>
      simp [buildRequest, h]

/-- C9 witness: o1-mini selects the user-only convention and
gpt-4.1-2025-04-14 the system-plus-seed convention. -/
theorem c9_calling_convention_witness :
    (buildRequest "o1-mini" "p" "s" 4096).messages.map ChatMessage.role =
      [Role.user] ∧
    (buildRequest "gpt-4.1-2025-04-14" "p" "s" 4096).seed = some 666 :=
  ⟨((c9_calling_convention "o1-mini" "p" "s" 4096).1 (by decide)).1,
   ((c9_calling_convention "gpt-4.1-2025-04-14" "p" "s" 4096).2.1 (by decide)).2.1⟩

end CompanyScreener
